import Mathlib

/-!
Verification of the LDGradnja backend (src/backend/main.py) against its
natural-language specification.

The file shallowly embeds the three request handlers of the FastAPI app:

- convert_dwg_to_dxf  (POST /convert/dwg-to-dxf, main.py lines 31-69)
- convert_dwg_to_svg  (POST /convert/dwg-to-svg, main.py lines 72-128)
- openai_proxy        (route /api/openai/{path}, main.py lines 131-162)

External effects (the dwg2dxf subprocess, the filesystem contents it
produces, the ezdxf/matplotlib rendering step, and the upstream HTTP call
of the proxy) are modelled as oracle values passed in as explicit "world"
arguments; the handlers themselves are translated line by line from the
Python source.  Each handler returns its HTTP response together with a
trace recording which effects happened (temporary directory created and
removed, rendering invoked, outbound call made).
-/

/-- Raw request or response bodies: byte sequences, each byte a Nat. -/
abbrev ByteSeq := List Nat

/-- The HTTP response a handler produces: either a successful
FastAPI Response (status, body bytes, media type, extra headers) or an
HTTPException (status plus detail string rendered as an error JSON body). -/
inductive HandlerResult where
  | ok (status : Nat) (body : ByteSeq) (mediaType : String)
      (headers : List (String × String))
  | err (status : Nat) (detail : String)
  deriving DecidableEq, Repr

/-- Status code of a handler result. -/
def HandlerResult.status : HandlerResult → Nat
  | .ok s _ _ _ => s
  | .err s _ => s

/-- Extra response headers of a handler result.  An HTTPException raised by
this backend carries no extra headers. -/
def HandlerResult.headers : HandlerResult → List (String × String)
  | .ok _ _ _ hs => hs
  | .err _ _ => []

/-- Result of subprocess.run on the dwg2dxf converter when it does not
time out: exit status plus captured stdout and stderr (text mode). -/
structure ProcResult where
  returncode : Int
  stdout : String
  stderr : String
  deriving DecidableEq, Repr

/-- Python str.lower on one character, restricted to the ASCII range the
filenames in scope use (Char.toLower is exactly the ASCII lowering). -/
def pyLowerChar (c : Char) : Char := c.toLower

/-- Python s.lower(): lower every character. -/
def pyLowerStr (s : String) : String := ⟨s.data.map pyLowerChar⟩

/-- Python s.endswith(suffix). -/
def pyEndsWith (s suffix : String) : Bool := suffix.data.isSuffixOf s.data

/-- One pass of Python str.replace: replace non-overlapping occurrences of
pat left to right.  Fuel-driven so the kernel can evaluate it; fuel equal
to the length of the list is always enough because every step consumes at
least one character of s. -/
def pyReplaceAux : Nat → List Char → List Char → List Char → List Char
  | 0, s, _, _ => s
  | fuel + 1, s, pat, rep =>
    if pat ≠ [] ∧ pat.isPrefixOf s then
      rep ++ pyReplaceAux fuel (s.drop pat.length) pat rep
    else
      match s with
      | [] => []
      | c :: rest => c :: pyReplaceAux fuel rest pat rep

/-- Python s.replace(pat, rep): replace every non-overlapping occurrence
of pat in s by rep, scanning left to right. -/
def pyReplace (s pat rep : String) : String :=
  ⟨pyReplaceAux s.data.length s.data pat.data rep.data⟩

/-- The upload-size limit of both conversion endpoints: 50 MiB
(main.py lines 38 and 79: 50 * 1024 * 1024). -/
def maxUploadBytes : Nat := 50 * 1024 * 1024

/-- The validation of main.py lines 34-35 / 75-76:
`not file.filename or not file.filename.lower().endswith(".dwg")`.
True when the upload passes (filename present, nonempty, ends in .dwg
case-insensitively). -/
def filenameAccepted : Option String → Bool
  | none => false
  | some fn => ¬ (fn = "" ∨ pyEndsWith (pyLowerStr fn) ".dwg" = false)

/-- Python str(FileNotFoundError) for a missing path, as raised by open()
on the absent output file. -/
def fileNotFoundText (p : String) : String :=
  "[Errno 2] No such file or directory: " ++ "\x27" ++ p ++ "\x27"

/-- Oracle for one run of the dwg-to-dxf handler: whether subprocess.run
raised TimeoutExpired, the process result otherwise, and the bytes of the
file at output_path if the converter created it (none when absent). -/
structure DxfWorld where
  timedOut : Bool
  proc : ProcResult
  outputBytes : Option ByteSeq
  deriving DecidableEq, Repr

/-- Effect trace of the dwg-to-dxf handler. -/
structure DxfTrace where
  tmpdirCreated : Bool
  tmpdirRemoved : Bool
  deriving DecidableEq, Repr

/-- Embedding of convert_dwg_to_dxf (main.py lines 31-69).
filename and the content bytes come from the multipart upload; tmpdir is
the fresh path tempfile.TemporaryDirectory would yield; w is the oracle
for the external converter run.  The with-statement on the temporary
directory removes it recursively on every exit path, normal return,
HTTPException and any other exception alike, so every branch reached
after its creation records tmpdirRemoved = true. -/
def convert_dwg_to_dxf (filename : Option String) (content : ByteSeq)
    (tmpdir : String) (w : DxfWorld) : HandlerResult × DxfTrace :=
  match filename with
  | none => (.err 400 "Fajl mora biti .dwg format", ⟨false, false⟩)
  | some fn =>
    if fn = "" ∨ pyEndsWith (pyLowerStr fn) ".dwg" = false then
      (.err 400 "Fajl mora biti .dwg format", ⟨false, false⟩)
    else if content.length > maxUploadBytes then
      (.err 413 "Fajl je prevelik (max 50MB)", ⟨false, false⟩)
    else
      let body : HandlerResult :=
        if w.timedOut = true then
          .err 500 "Konverzija je istekla (timeout)"
        else if w.proc.returncode ≠ 0 then
          .err 500 ("Konverzija nije uspjela: " ++ w.proc.stderr)
        else
          match w.outputBytes with
          | none =>
            .err 500 ("Konverzija nije uspjela: " ++
              fileNotFoundText (tmpdir ++ "/output.dxf"))
          | some bs =>
            .ok 200 bs "application/dxf"
              [("Content-Disposition",
                "attachment; filename=" ++ pyReplace fn ".dwg" ".dxf")]
      (body, ⟨true, true⟩)

/-- Oracle for one run of the dwg-to-svg handler: the hop-1 converter run
(timeout flag and process result) and the outcome of step 2, the whole
ezdxf parse plus matplotlib render plus savefig plus read block, which
either raises an exception with text e (Except.error e) or yields the SVG
bytes. -/
structure SvgWorld where
  timedOut : Bool
  proc : ProcResult
  render : Except String ByteSeq
  deriving Repr

/-- Effect trace of the dwg-to-svg handler. -/
structure SvgTrace where
  tmpdirCreated : Bool
  tmpdirRemoved : Bool
  renderingInvoked : Bool
  deriving DecidableEq, Repr

/-- Embedding of convert_dwg_to_svg (main.py lines 72-128).  Hop 1 runs
dwg2dxf; a timeout or a non-zero exit raises an HTTPException(500) before
the rendering block (lines 98-119) is reached, so those branches record
renderingInvoked = false.  A rendering exception is caught by the generic
handler at line 127 and re-raised as HTTPException(500, "SVG konverzija
nije uspjela: " + str(e)). -/
def convert_dwg_to_svg (filename : Option String) (content : ByteSeq)
    (w : SvgWorld) : HandlerResult × SvgTrace :=
  match filename with
  | none => (.err 400 "Fajl mora biti .dwg format", ⟨false, false, false⟩)
  | some fn =>
    if fn = "" ∨ pyEndsWith (pyLowerStr fn) ".dwg" = false then
      (.err 400 "Fajl mora biti .dwg format", ⟨false, false, false⟩)
    else if content.length > maxUploadBytes then
      (.err 413 "Fajl je prevelik (max 50MB)", ⟨false, false, false⟩)
    else
      if w.timedOut = true then
        (.err 500 "Konverzija je istekla (timeout)", ⟨true, true, false⟩)
      else if w.proc.returncode ≠ 0 then
        (.err 500 ("DWG→DXF konverzija nije uspjela: " ++ w.proc.stderr),
          ⟨true, true, false⟩)
      else
        match w.render with
        | .error e =>
          (.err 500 ("SVG konverzija nije uspjela: " ++ e),
            ⟨true, true, true⟩)
        | .ok svg =>
          (.ok 200 svg "image/svg+xml" [], ⟨true, true, true⟩)

/-- Modelled from the spec: the diagnostic-selection chain the spec
describes for a failed conversion: stderr if non-empty, else stdout if
non-empty, else a generic unknown-failure message.  This definition
follows the words of the spec, for comparison with what the code embeds;
the source has no such chain. -/
def specDiagnostic (r : ProcResult) : String :=
  if r.stderr ≠ "" then r.stderr
  else if r.stdout ≠ "" then r.stdout
  else "unknown failure"

/-- An inbound request to the proxy handler, as the handler reads it:
method, the wildcard path, the Authorization and Content-Type headers
(none when the caller did not send them) and the raw body. -/
structure ProxyReq where
  method : String
  path : String
  authHeader : Option String
  contentTypeHeader : Option String
  body : ByteSeq
  deriving DecidableEq, Repr

/-- Outcome of the outbound httpx call, had it been made: a timeout
(httpx.TimeoutException), a transport error with its text
(httpx.RequestError), or an upstream response with status, body bytes and
the content-type header when the upstream sent one. -/
inductive UpstreamOutcome where
  | timeout
  | transportError (msg : String)
  | response (status : Nat) (body : ByteSeq) (contentType : Option String)
  deriving DecidableEq, Repr

/-- Effect trace of the proxy handler: whether the outbound
client.request call was made. -/
structure ProxyTrace where
  outboundCalled : Bool
  deriving DecidableEq, Repr

/-- The HTTP methods the route decorator of the proxy declares
(main.py line 131). -/
def openai_proxy_methods : List String := ["POST", "GET"]

/-- Whether the proxy route accepts an HTTP method. -/
def proxyRouteAccepts (m : String) : Bool := openai_proxy_methods.contains m

/-- The credential resolution of main.py lines 134-136: the server-side
OPENAI_API_KEY environment value when set and non-empty (Python
truthiness), else the caller Authorization header, else the empty string.
apiKeyEnv is the raw environment lookup (none when the variable is
unset); os.environ.get turns that into "". -/
def resolveAuth (apiKeyEnv : Option String) (authHeader : Option String) :
    String :=
  let api_key := apiKeyEnv.getD ""
  if api_key ≠ "" then "Bearer " ++ api_key else authHeader.getD ""

/-- The header dict forwarded upstream (main.py lines 141-144). -/
def forwardedHeaders (apiKeyEnv : Option String) (req : ProxyReq) :
    List (String × String) :=
  [("Authorization", resolveAuth apiKeyEnv req.authHeader),
   ("Content-Type", req.contentTypeHeader.getD "application/json")]

/-- Embedding of openai_proxy (main.py lines 131-162).  When the resolved
credential is empty the handler raises HTTPException(401) before any
outbound call; otherwise it performs the client.request and relays the
upstream status, body and content-type (defaulting the media type to
application/json when the upstream response has no content-type header),
or maps a timeout to 504 and a transport error to 502. -/
def openai_proxy (apiKeyEnv : Option String) (req : ProxyReq)
    (up : UpstreamOutcome) : HandlerResult × ProxyTrace :=
  let auth := resolveAuth apiKeyEnv req.authHeader
  if auth = "" then
    (.err 401
      "OpenAI API key not configured. Set OPENAI_API_KEY environment variable.",
      ⟨false⟩)
  else
    match up with
    | .timeout => (.err 504 "OpenAI API timeout", ⟨true⟩)
    | .transportError m =>
      (.err 502 ("OpenAI API nedostupan: " ++ m), ⟨true⟩)
    | .response s b ct =>
      (.ok s b (ct.getD "application/json") [], ⟨true⟩)

/-- C1 (counterexample): a run of the dwg-to-svg handler in which hop 1
succeeds (exit 0) and rendering fails is answered with HTTPException 500
and no headers at all, contradicting the claimed PartialSuccess fallback
response (DXF body, application/dxf, X-Fallback and X-Error headers, not
a 500). -/
theorem C1_counterexample :
    ((convert_dwg_to_svg (some "a.dwg") []
        ⟨false, ⟨0, "", ""⟩, .error "render boom"⟩).1).status = 500 ∧
    ((convert_dwg_to_svg (some "a.dwg") []
        ⟨false, ⟨0, "", ""⟩, .error "render boom"⟩).1).headers = [] ∧
    (convert_dwg_to_svg (some "a.dwg") []
        ⟨false, ⟨0, "", ""⟩, .error "render boom"⟩).1 =
      .err 500 "SVG konverzija nije uspjela: render boom" :=
  ⟨rfl, rfl, rfl⟩

/-- C1 (amended): for every upload to the DWG-to-SVG endpoint whose first
conversion hop succeeds but whose rendering stage fails, the handler
raises HTTPException 500 with detail "SVG konverzija nije uspjela: "
followed by the rendering-error text; no fallback DXF response and no
X-Fallback or X-Error header is produced. -/
theorem C1_render_failure_returns_500 (fn : String) (content : ByteSeq)
    (w : SvgWorld) (e : String)
    (h1 : fn ≠ "") (h2 : pyEndsWith (pyLowerStr fn) ".dwg" = true)
    (h3 : content.length ≤ maxUploadBytes)
    (h4 : w.timedOut = false) (h5 : w.proc.returncode = 0)
    (h6 : w.render = .error e) :
    convert_dwg_to_svg (some fn) content w =
      (.err 500 ("SVG konverzija nije uspjela: " ++ e), ⟨true, true, true⟩) := by
  simp [convert_dwg_to_svg, h1, h2, h4, h5, h6, Nat.not_lt.mpr h3]

/-- C1 (witness): the amended theorem applied at a concrete run. -/
theorem C1_witness :
    convert_dwg_to_svg (some "a.dwg") []
        ⟨false, ⟨0, "", ""⟩, .error "boom"⟩ =
      (.err 500 ("SVG konverzija nije uspjela: " ++ "boom"),
        ⟨true, true, true⟩) :=
  C1_render_failure_returns_500 "a.dwg" [] ⟨false, ⟨0, "", ""⟩, .error "boom"⟩
    "boom" (by decide) (by decide) (by decide) rfl rfl rfl

/-- C2 (counterexample): a run of the dwg-to-dxf handler whose converter
exits non-zero while the expected output file exists (bytes [7] at
output_path) still fails with a 500: the non-zero exit code alone makes
the pipeline fail, the output file is never consulted and no directory
scan happens, contradicting the claim. -/
theorem C2_counterexample :
    (convert_dwg_to_dxf (some "a.dwg") [] "/tmp/t"
        ⟨false, ⟨1, "", "boom"⟩, some [7]⟩).1 =
      .err 500 "Konverzija nije uspjela: boom" :=
  rfl

/-- C2 (amended): on both conversion endpoints, a non-zero converter
exit code makes the pipeline fail immediately with a 500 carrying
stderr, regardless of whether any output file exists (on the SVG
endpoint, regardless of what the rendering stage would have produced);
and on the DXF endpoint, when the exit code is zero but the expected
output file is absent, the handler fails with a 500 carrying the
file-not-found exception text — no scan of the working directory for
other files with the output extension is performed. -/
theorem C2_nonzero_exit_fails_immediately (fn : String) (content : ByteSeq)
    (tmp : String) (w : DxfWorld) (ws : SvgWorld)
    (h1 : fn ≠ "") (h2 : pyEndsWith (pyLowerStr fn) ".dwg" = true)
    (h3 : content.length ≤ maxUploadBytes)
    (h4 : w.timedOut = false) (h4s : ws.timedOut = false) :
    (w.proc.returncode ≠ 0 →
      convert_dwg_to_dxf (some fn) content tmp w =
        (.err 500 ("Konverzija nije uspjela: " ++ w.proc.stderr),
          ⟨true, true⟩)) ∧
    (ws.proc.returncode ≠ 0 →
      convert_dwg_to_svg (some fn) content ws =
        (.err 500 ("DWG→DXF konverzija nije uspjela: " ++ ws.proc.stderr),
          ⟨true, true, false⟩)) ∧
    (w.proc.returncode = 0 → w.outputBytes = none →
      convert_dwg_to_dxf (some fn) content tmp w =
        (.err 500 ("Konverzija nije uspjela: " ++
            fileNotFoundText (tmp ++ "/output.dxf")),
          ⟨true, true⟩)) := by
  refine ⟨?_, ?_, ?_⟩
  · intro h5
    simp [convert_dwg_to_dxf, h1, h2, h4, h5, Nat.not_lt.mpr h3]
  · intro h5
    simp [convert_dwg_to_svg, h1, h2, h4s, h5, Nat.not_lt.mpr h3]
  · intro h5 h6
    simp [convert_dwg_to_dxf, h1, h2, h4, h5, h6, Nat.not_lt.mpr h3]

/-- C2 (witness): the amended theorem applied at three concrete runs: a
DXF-endpoint run with a non-zero exit and an existing output file, an
SVG-endpoint run with a non-zero exit whose rendering oracle would have
succeeded, and a DXF-endpoint run with exit zero and a missing output
file. -/
theorem C2_witness :
    (convert_dwg_to_dxf (some "a.dwg") [] "/t"
        ⟨false, ⟨1, "out", "boom"⟩, some [7]⟩ =
      (.err 500 ("Konverzija nije uspjela: " ++ "boom"), ⟨true, true⟩)) ∧
    (convert_dwg_to_svg (some "a.dwg") []
        ⟨false, ⟨1, "out", "boom"⟩, .ok [3]⟩ =
      (.err 500 ("DWG→DXF konverzija nije uspjela: " ++ "boom"),
        ⟨true, true, false⟩)) ∧
    (convert_dwg_to_dxf (some "a.dwg") [] "/t"
        ⟨false, ⟨0, "", ""⟩, none⟩ =
      (.err 500 ("Konverzija nije uspjela: " ++
          fileNotFoundText ("/t" ++ "/output.dxf")), ⟨true, true⟩)) :=
  ⟨(C2_nonzero_exit_fails_immediately "a.dwg" [] "/t"
      ⟨false, ⟨1, "out", "boom"⟩, some [7]⟩ ⟨false, ⟨1, "out", "boom"⟩, .ok [3]⟩
      (by decide) (by decide) (by decide) rfl rfl).1 (by decide),
   (C2_nonzero_exit_fails_immediately "a.dwg" [] "/t"
      ⟨false, ⟨1, "out", "boom"⟩, some [7]⟩ ⟨false, ⟨1, "out", "boom"⟩, .ok [3]⟩
      (by decide) (by decide) (by decide) rfl rfl).2.1 (by decide),
   (C2_nonzero_exit_fails_immediately "a.dwg" [] "/t"
      ⟨false, ⟨0, "", ""⟩, none⟩ ⟨false, ⟨1, "out", "boom"⟩, .ok [3]⟩
      (by decide) (by decide) (by decide) rfl rfl).2.2 rfl rfl⟩

set_option maxRecDepth 8192 in
/-- C3 (counterexample): two runs that end in Failure with no output
artifact produced (outputBytes = none).  In the first the process exits
non-zero with empty stderr and non-empty stdout: the response carries
the stderr-based message "Konverzija nije uspjela: " with nothing
appended, while the diagnostic chain of the claim would have picked the
stdout text, which appears nowhere in the detail.  In the second the
process exits zero with empty stderr and stdout: the response carries
the file-not-found exception text, not the generic unknown-failure
message the chain prescribes. -/
theorem C3_counterexample :
    (convert_dwg_to_dxf (some "a.dwg") [] "/tmp/t"
        ⟨false, ⟨1, "tool said so", ""⟩, none⟩).1 =
      .err 500 ("Konverzija nije uspjela: " ++ "") ∧
    specDiagnostic ⟨1, "tool said so", ""⟩ = "tool said so" ∧
    ¬ List.IsInfix "tool said so".data
        ("Konverzija nije uspjela: " ++ "").data ∧
    (convert_dwg_to_dxf (some "a.dwg") [] "/tmp/t"
        ⟨false, ⟨0, "", ""⟩, none⟩).1 =
      .err 500 ("Konverzija nije uspjela: " ++
        fileNotFoundText ("/tmp/t" ++ "/output.dxf")) ∧
    specDiagnostic ⟨0, "", ""⟩ = "unknown failure" ∧
    ¬ List.IsInfix "unknown failure".data
        ("Konverzija nije uspjela: " ++
          fileNotFoundText ("/tmp/t" ++ "/output.dxf")).data := by
  refine ⟨rfl, rfl, by decide, rfl, rfl, by decide⟩

/-- C3 (amended): when a conversion fails on a non-zero exit code, the
diagnostic embedded in the 500 response is "Konverzija nije uspjela: "
(resp. "DWG→DXF konverzija nije uspjela: " for the SVG endpoint) followed
by the process stderr verbatim, even when stderr is empty; stdout is
never consulted (two runs differing only in stdout yield identical
responses) and there is no generic unknown-failure fallback. -/
theorem C3_diagnostic_is_stderr_only (fn : String) (content : ByteSeq)
    (tmp : String) (rc : Int) (out out2 errText : String)
    (ob : Option ByteSeq) (r : Except String ByteSeq)
    (h1 : fn ≠ "") (h2 : pyEndsWith (pyLowerStr fn) ".dwg" = true)
    (h3 : content.length ≤ maxUploadBytes) :
    (rc ≠ 0 →
      convert_dwg_to_dxf (some fn) content tmp
          ⟨false, ⟨rc, out, errText⟩, ob⟩ =
        (.err 500 ("Konverzija nije uspjela: " ++ errText), ⟨true, true⟩)) ∧
    (rc ≠ 0 →
      convert_dwg_to_dxf (some fn) content tmp
          ⟨false, ⟨rc, out, errText⟩, ob⟩ =
        convert_dwg_to_dxf (some fn) content tmp
          ⟨false, ⟨rc, out2, errText⟩, ob⟩) ∧
    (rc ≠ 0 →
      convert_dwg_to_svg (some fn) content ⟨false, ⟨rc, out, errText⟩, r⟩ =
        (.err 500 ("DWG→DXF konverzija nije uspjela: " ++ errText),
          ⟨true, true, false⟩)) ∧
    (rc = 0 → ob = none →
      convert_dwg_to_dxf (some fn) content tmp
          ⟨false, ⟨rc, out, errText⟩, ob⟩ =
        (.err 500 ("Konverzija nije uspjela: " ++
            fileNotFoundText (tmp ++ "/output.dxf")),
          ⟨true, true⟩)) := by
  refine ⟨?_, ?_, ?_, ?_⟩
  · intro h5
    simp [convert_dwg_to_dxf, h1, h2, h5, Nat.not_lt.mpr h3]
  · intro h5
    simp [convert_dwg_to_dxf, h1, h2, h5, Nat.not_lt.mpr h3]
  · intro h5
    simp [convert_dwg_to_svg, h1, h2, h5, Nat.not_lt.mpr h3]
  · intro h5 h6
    simp [convert_dwg_to_dxf, h1, h2, h5, h6, Nat.not_lt.mpr h3]

/-- C3 (witness): the amended theorem applied at two concrete runs with
no output artifact: one failing with empty stderr and non-empty stdout,
one exiting zero so the diagnostic is the file-not-found text. -/
theorem C3_witness :
    (convert_dwg_to_dxf (some "a.dwg") [] "/t"
        ⟨false, ⟨1, "tool said so", ""⟩, none⟩ =
      (.err 500 ("Konverzija nije uspjela: " ++ ""), ⟨true, true⟩)) ∧
    (convert_dwg_to_dxf (some "a.dwg") [] "/t"
        ⟨false, ⟨0, "tool said so", ""⟩, none⟩ =
      (.err 500 ("Konverzija nije uspjela: " ++
          fileNotFoundText ("/t" ++ "/output.dxf")), ⟨true, true⟩)) :=
  ⟨(C3_diagnostic_is_stderr_only "a.dwg" [] "/t" 1 "tool said so" "other" ""
      none (.ok []) (by decide) (by decide) (by decide)).1 (by decide),
   (C3_diagnostic_is_stderr_only "a.dwg" [] "/t" 0 "tool said so" "other" ""
      none (.ok []) (by decide) (by decide) (by decide)).2.2.2 rfl rfl⟩

/-- C4 (counterexample): the upload filename "plan.DWG" passes the
case-insensitive validation, yet on success the attachment filename is
the unchanged "plan.DWG" — str.replace is case-sensitive, so the
extension is not swapped; and for "a.dwg.dwg" every occurrence is
replaced, giving "a.dxf.dxf" rather than a swap of the final extension
only. -/
theorem C4_counterexample :
    pyEndsWith (pyLowerStr "plan.DWG") ".dwg" = true ∧
    (convert_dwg_to_dxf (some "plan.DWG") [] "/tmp/t"
        ⟨false, ⟨0, "", ""⟩, some [7]⟩).1 =
      .ok 200 [7] "application/dxf"
        [("Content-Disposition", "attachment; filename=plan.DWG")] ∧
    pyReplace "a.dwg.dwg" ".dwg" ".dxf" = "a.dxf.dxf" := by
  refine ⟨by decide, rfl, by decide⟩

/-- C4 (amended): for every successful DWG-to-DXF conversion, the
Content-Disposition attachment filename equals the uploaded filename with
every occurrence of the lowercase substring ".dwg" replaced by ".dxf"
(Python str.replace): an upper-case extension such as "plan.DWG" is left
unchanged, and occurrences elsewhere than at the end are replaced too. -/
theorem C4_filename_lowercase_replace (fn : String) (content : ByteSeq)
    (tmp : String) (w : DxfWorld) (bs : ByteSeq)
    (h1 : fn ≠ "") (h2 : pyEndsWith (pyLowerStr fn) ".dwg" = true)
    (h3 : content.length ≤ maxUploadBytes)
    (h4 : w.timedOut = false) (h5 : w.proc.returncode = 0)
    (h6 : w.outputBytes = some bs) :
    convert_dwg_to_dxf (some fn) content tmp w =
      (.ok 200 bs "application/dxf"
        [("Content-Disposition",
          "attachment; filename=" ++ pyReplace fn ".dwg" ".dxf")],
        ⟨true, true⟩) := by
  simp [convert_dwg_to_dxf, h1, h2, h4, h5, h6, Nat.not_lt.mpr h3]

/-- C4 (witness): the amended theorem applied at a concrete successful
run with an upper-case extension, where the filename stays "plan.DWG". -/
theorem C4_witness :
    convert_dwg_to_dxf (some "plan.DWG") [] "/t"
        ⟨false, ⟨0, "", ""⟩, some [7]⟩ =
      (.ok 200 [7] "application/dxf"
        [("Content-Disposition",
          "attachment; filename=" ++ pyReplace "plan.DWG" ".dwg" ".dxf")],
        ⟨true, true⟩) :=
  C4_filename_lowercase_replace "plan.DWG" [] "/t"
    ⟨false, ⟨0, "", ""⟩, some [7]⟩ [7]
    (by decide) (by decide) (by decide) rfl rfl rfl

/-- C5: for every upload whose filename is missing or does not end in
.dwg case-insensitively, both conversion handlers reject with 400 and the
trace shows no temporary directory was created; and for every accepted
filename with content over 50 MiB, both handlers reject with 413,
likewise before any temporary directory is created. -/
theorem C5_validation_rejects_before_tmpdir (fnOpt : Option String)
    (content : ByteSeq) (tmp : String) (w : DxfWorld) (w2 : SvgWorld) :
    (filenameAccepted fnOpt = false →
      convert_dwg_to_dxf fnOpt content tmp w =
        (.err 400 "Fajl mora biti .dwg format", ⟨false, false⟩) ∧
      convert_dwg_to_svg fnOpt content w2 =
        (.err 400 "Fajl mora biti .dwg format", ⟨false, false, false⟩)) ∧
    (filenameAccepted fnOpt = true → content.length > maxUploadBytes →
      convert_dwg_to_dxf fnOpt content tmp w =
        (.err 413 "Fajl je prevelik (max 50MB)", ⟨false, false⟩) ∧
      convert_dwg_to_svg fnOpt content w2 =
        (.err 413 "Fajl je prevelik (max 50MB)", ⟨false, false, false⟩)) := by
  constructor
  · intro hf
    cases fnOpt with
    | none => exact ⟨rfl, rfl⟩
    | some fn =>
      have hc : fn = "" ∨ pyEndsWith (pyLowerStr fn) ".dwg" = false :=
        not_not.mp (of_decide_eq_false hf)
      constructor
      · simp only [convert_dwg_to_dxf]
        rw [if_pos hc]
      · simp only [convert_dwg_to_svg]
        rw [if_pos hc]
  · intro ht hlen
    cases fnOpt with
    | none => exact absurd ht (by decide)
    | some fn =>
      have hc : ¬ (fn = "" ∨ pyEndsWith (pyLowerStr fn) ".dwg" = false) :=
        of_decide_eq_true ht
      constructor
      · simp only [convert_dwg_to_dxf]
        rw [if_neg hc, if_pos hlen]
      · simp only [convert_dwg_to_svg]
        rw [if_neg hc, if_pos hlen]

/-- C5 (witness): the theorem applied at a wrong-extension upload and at
an oversized upload of 50 MiB plus one byte. -/
theorem C5_witness :
    (convert_dwg_to_dxf (some "plan.txt") [] "/t"
        ⟨false, ⟨0, "", ""⟩, none⟩ =
      (.err 400 "Fajl mora biti .dwg format", ⟨false, false⟩)) ∧
    (convert_dwg_to_svg (some "a.dwg") (List.replicate (maxUploadBytes + 1) 0)
        ⟨false, ⟨0, "", ""⟩, .error "x"⟩ =
      (.err 413 "Fajl je prevelik (max 50MB)", ⟨false, false, false⟩)) :=
  ⟨((C5_validation_rejects_before_tmpdir (some "plan.txt") [] "/t"
      ⟨false, ⟨0, "", ""⟩, none⟩ ⟨false, ⟨0, "", ""⟩, .error "x"⟩).1
      (by decide)).1,
   ((C5_validation_rejects_before_tmpdir (some "a.dwg")
      (List.replicate (maxUploadBytes + 1) 0) "/t"
      ⟨false, ⟨0, "", ""⟩, none⟩ ⟨false, ⟨0, "", ""⟩, .error "x"⟩).2
      (by decide)
      (by rw [List.length_replicate]; exact Nat.lt_succ_self _)).2⟩

/-- C6: for every DWG-to-SVG request in which hop 1 fails (subprocess
timeout or non-zero exit code), the handler answers 500 with hop 1's own
diagnostic (the fixed timeout message, or the hop-1 stderr message) and
the rendering stage is never invoked. -/
theorem C6_hop1_failure_skips_rendering (fn : String) (content : ByteSeq)
    (w : SvgWorld)
    (h1 : fn ≠ "") (h2 : pyEndsWith (pyLowerStr fn) ".dwg" = true)
    (h3 : content.length ≤ maxUploadBytes)
    (hfail : w.timedOut = true ∨ w.proc.returncode ≠ 0) :
    (convert_dwg_to_svg (some fn) content w).2.renderingInvoked = false ∧
    (convert_dwg_to_svg (some fn) content w).1 =
      (if w.timedOut = true then
        HandlerResult.err 500 "Konverzija je istekla (timeout)"
      else
        HandlerResult.err 500
          ("DWG→DXF konverzija nije uspjela: " ++ w.proc.stderr)) := by
  by_cases ht : w.timedOut = true
  · constructor
    · simp [convert_dwg_to_svg, h1, h2, ht, Nat.not_lt.mpr h3]
    · simp [convert_dwg_to_svg, h1, h2, ht, Nat.not_lt.mpr h3]
  · have hrc : w.proc.returncode ≠ 0 := hfail.resolve_left ht
    constructor
    · simp [convert_dwg_to_svg, h1, h2, ht, hrc, Nat.not_lt.mpr h3]
    · simp [convert_dwg_to_svg, h1, h2, ht, hrc, Nat.not_lt.mpr h3]

/-- C6 (witness): the theorem applied at a concrete run whose converter
exits with code 2; rendering is skipped and the hop-1 stderr is
returned. -/
theorem C6_witness :
    (convert_dwg_to_svg (some "a.dwg") []
        ⟨false, ⟨2, "", "hop1 failed"⟩, .ok [1]⟩).2.renderingInvoked
      = false ∧
    (convert_dwg_to_svg (some "a.dwg") []
        ⟨false, ⟨2, "", "hop1 failed"⟩, .ok [1]⟩).1 =
      .err 500 ("DWG→DXF konverzija nije uspjela: " ++ "hop1 failed") := by
  have h := C6_hop1_failure_skips_rendering "a.dwg" []
    ⟨false, ⟨2, "", "hop1 failed"⟩, .ok [1]⟩
    (by decide) (by decide) (by decide) (Or.inr (by decide))
  exact ⟨h.1, by simpa using h.2⟩

/-- C7: for every run of either conversion handler, whenever the trace
records that the temporary working directory was created, it also records
that the directory was removed — on every exit path and for every oracle
world: success, conversion failure, missing output, timeout, and the
rendering exception of the SVG handler. -/
theorem C7_tmpdir_always_removed (fnOpt : Option String) (content : ByteSeq)
    (tmp : String) (w : DxfWorld) (w2 : SvgWorld) :
    ((convert_dwg_to_dxf fnOpt content tmp w).2.tmpdirCreated = true →
      (convert_dwg_to_dxf fnOpt content tmp w).2.tmpdirRemoved = true) ∧
    ((convert_dwg_to_svg fnOpt content w2).2.tmpdirCreated = true →
      (convert_dwg_to_svg fnOpt content w2).2.tmpdirRemoved = true) := by
  constructor
  · cases fnOpt with
    | none => exact fun h => h
    | some fn =>
      simp only [convert_dwg_to_dxf]
      split
      · exact fun h => h
      · split
        · exact fun h => h
        · exact fun _ => rfl
  · cases fnOpt with
    | none => exact fun h => h
    | some fn =>
      simp only [convert_dwg_to_svg]
      split
      · exact fun h => h
      · split
        · exact fun h => h
        · split
          · exact fun _ => rfl
          · split
            · exact fun _ => rfl
            · cases w2.render with
              | error e => exact fun _ => rfl
              | ok svg => exact fun _ => rfl

/-- C7 (witness): the theorem applied at two concrete runs that reach the
temporary directory, one hitting the dxf timeout path and one hitting the
SVG rendering-exception path; in both the directory is removed. -/
theorem C7_witness :
    (convert_dwg_to_dxf (some "a.dwg") [] "/t"
        ⟨true, ⟨0, "", ""⟩, none⟩).2.tmpdirRemoved = true ∧
    (convert_dwg_to_svg (some "a.dwg") []
        ⟨false, ⟨0, "", ""⟩, .error "boom"⟩).2.tmpdirRemoved = true :=
  ⟨(C7_tmpdir_always_removed (some "a.dwg") [] "/t"
      ⟨true, ⟨0, "", ""⟩, none⟩ ⟨false, ⟨0, "", ""⟩, .error "boom"⟩).1 rfl,
   (C7_tmpdir_always_removed (some "a.dwg") [] "/t"
      ⟨true, ⟨0, "", ""⟩, none⟩ ⟨false, ⟨0, "", ""⟩, .error "boom"⟩).2 rfl⟩

/-- C8 (counterexample): the proxy route declares only POST and GET, so
it does not accept requests of every HTTP method: DELETE (and PUT) are
not routed to the handler. -/
theorem C8_counterexample :
    proxyRouteAccepts "DELETE" = false ∧ proxyRouteAccepts "PUT" = false :=
  ⟨rfl, rfl⟩

/-- C8 (amended): the proxy route accepts only the POST and GET methods
under the /api/openai/ prefix; for every request it does forward, the
upstream status code and body are relayed verbatim and the upstream
content-type is relayed when present (defaulting to application/json when
the upstream response carries none). -/
theorem C8_methods_and_relay (apiKeyEnv : Option String) (req : ProxyReq)
    (s : Nat) (b : ByteSeq) (ct : Option String)
    (h : resolveAuth apiKeyEnv req.authHeader ≠ "") :
    openai_proxy apiKeyEnv req (.response s b ct) =
      (.ok s b (ct.getD "application/json") [], ⟨true⟩) ∧
    proxyRouteAccepts "POST" = true ∧ proxyRouteAccepts "GET" = true ∧
    proxyRouteAccepts "DELETE" = false := by
  refine ⟨?_, rfl, rfl, rfl⟩
  simp [openai_proxy, h]

/-- C8 (witness): the amended theorem applied at a concrete forwarded
request whose upstream answers 418 with a text/plain body. -/
theorem C8_witness :
    openai_proxy (some "sk-test")
        ⟨"POST", "v1/chat", none, some "application/json", [1, 2]⟩
        (.response 418 [9, 8] (some "text/plain")) =
      (.ok 418 [9, 8] "text/plain" [], ⟨true⟩) :=
  (C8_methods_and_relay (some "sk-test")
    ⟨"POST", "v1/chat", none, some "application/json", [1, 2]⟩
    418 [9, 8] (some "text/plain") (by decide)).1

/-- C9: for every proxy request made while no server-side API key is
configured (environment variable unset or empty) and the caller supplies
no Authorization header, the handler answers 401 with the fixed message
and the trace shows no outbound call to the upstream host was made —
whatever the upstream would have answered. -/
theorem C9_no_credential_401_no_outbound (apiKeyEnv : Option String)
    (req : ProxyReq) (up : UpstreamOutcome)
    (hk : apiKeyEnv.getD "" = "") (ha : req.authHeader.getD "" = "") :
    openai_proxy apiKeyEnv req up =
      (.err 401
        "OpenAI API key not configured. Set OPENAI_API_KEY environment variable.",
        ⟨false⟩) := by
  have hauth : resolveAuth apiKeyEnv req.authHeader = "" := by
    simp [resolveAuth, hk, ha]
  simp [openai_proxy, hauth]

/-- C9 (witness): the theorem applied at a concrete credential-free
request; the 401 is returned and outboundCalled is false even though the
upstream oracle would have produced a response. -/
theorem C9_witness :
    openai_proxy none ⟨"POST", "v1/chat", none, none, []⟩
        (.response 200 [1] (some "application/json")) =
      (.err 401
        "OpenAI API key not configured. Set OPENAI_API_KEY environment variable.",
        ⟨false⟩) :=
  C9_no_credential_401_no_outbound none ⟨"POST", "v1/chat", none, none, []⟩
    (.response 200 [1] (some "application/json")) rfl rfl

/-- C10: for every proxy request made while the server-side
OPENAI_API_KEY value is a non-empty string k, the forwarded Authorization
header is exactly "Bearer " ++ k, and two requests differing only in the
caller-supplied Authorization header produce identical forwarded headers:
the caller header never influences the forwarded credential. -/
theorem C10_server_key_overrides_caller (k : String) (m p : String)
    (a a2 ct : Option String) (b : ByteSeq) (hk : k ≠ "") :
    resolveAuth (some k) a = "Bearer " ++ k ∧
    forwardedHeaders (some k) ⟨m, p, a, ct, b⟩ =
      forwardedHeaders (some k) ⟨m, p, a2, ct, b⟩ := by
  have h1 : resolveAuth (some k) a = "Bearer " ++ k := by
    simp [resolveAuth, hk]
  have h2 : resolveAuth (some k) a2 = "Bearer " ++ k := by
    simp [resolveAuth, hk]
  exact ⟨h1, by simp [forwardedHeaders, h1, h2]⟩

/-- C10 (witness): the theorem applied with server key "sk-live" against
a caller header "Bearer attacker" and an absent caller header; the
forwarded credential is the server key either way. -/
theorem C10_witness :
    resolveAuth (some "sk-live") (some "Bearer attacker") =
      "Bearer " ++ "sk-live" ∧
    forwardedHeaders (some "sk-live")
        ⟨"POST", "v1/x", some "Bearer attacker", none, []⟩ =
      forwardedHeaders (some "sk-live") ⟨"POST", "v1/x", none, none, []⟩ :=
  C10_server_key_overrides_caller "sk-live" "POST" "v1/x"
    (some "Bearer attacker") none none [] (by decide)
